import Mathlib

/-!
Verification of the UI walkthrough runner `verification/verify_game.py` of
the Recalla repository.

The script is a single linear Playwright session.  We embed it shallowly as
a deterministic function from an abstract page environment (which landmark
selectors eventually appear, and which DOM elements match the two locators
the script uses, listed in document order) to a run result: the list of
observable events performed by the script, in order, together with an
outcome that is either normal completion or the propagated
automation-library error.

Conventions of the embedding:
- an `Event.waitForSelector sel t` entry records that the script invoked
  `page.wait_for_selector(sel, timeout=t)` with exactly those arguments
  (`t = none` when no timeout argument is passed); whether the call
  returned or raised is determined by the environment flags;
- a failed wait, the `.first.click()` on an empty locator, and a plain
  locator click whose locator resolves to two or more elements (Playwright
  locator actions are strict: such a click raises a strict-mode violation
  instead of clicking anything) all raise: no further script events occur,
  the outcome is the error, and the
  `with sync_playwright()` context manager still runs its exit action
  (`Event.stopPlaywright`), which releases the driver and any browser it
  spawned;
- `print` calls are kept as events with their exact message strings;
- element identities are natural numbers; the locator match lists are
  given in document order, so the head of a list is the first match in
  document order (the element Playwright's `.first` denotes).
-/

namespace VerifyGame

/-- Observable events of one run of the script, in program order. -/
inductive Event where
  | launch : Event
  | newPage : Event
  | print (msg : String) : Event
  | goto (url : String) : Event
  | waitForSelector (sel : String) (timeout : Option Nat) : Event
  | click (locator : String) (elem : Nat) : Event
  | sleep (seconds : Nat) : Event
  | screenshot (path : String) : Event
  | closeBrowser : Event
  | stopPlaywright : Event
  deriving DecidableEq, Repr

/-- Errors raised by the automation library and not caught by the script.
`strictMode loc` is the strict-mode violation a locator action raises when
the locator resolves to more than one element. -/
inductive AutoError where
  | timeout (sel : String) (timeoutArg : Option Nat) : AutoError
  | noElement (locator : String) : AutoError
  | strictMode (locator : String) : AutoError
  deriving DecidableEq, Repr

/-- Abstract state of the application under test, as far as the script can
observe it: whether each awaited selector eventually appears (within the
respective timeout), and the elements matching the two locators the script
queries, in document order. -/
structure Env where
  /-- does `text=Recalla` appear within the library default timeout -/
  homeLandmark : Bool
  /-- elements matching `get_by_text("Start Learning")`, in document order -/
  startButtons : List Nat
  /-- does `text=German Words` appear within 10000 ms -/
  categoryLandmark : Bool
  /-- elements matching `get_by_role("button", name="Play")`, document order -/
  playButtons : List Nat
  /-- does `.grid` appear within 10000 ms -/
  gridMarker : Bool
  deriving DecidableEq, Repr

instance : DecidableEq (Except AutoError Unit) := fun a b =>
  match a, b with
  | .ok (), .ok () => isTrue rfl
  | .ok (), .error _ => isFalse (fun h => Except.noConfusion h)
  | .error _, .ok () => isFalse (fun h => Except.noConfusion h)
  | .error x, .error y =>
    if h : x = y then isTrue (by rw [h])
    else isFalse (fun hh => h (by injection hh))

/-- Result of one run: the events performed, and normal completion or the
propagated automation error. -/
structure RunResult where
  trace : List Event
  outcome : Except AutoError Unit
  deriving DecidableEq, Repr

/-- The hardcoded application root URL (`page.goto` at line 10). -/
def rootURL : String := "http://localhost:5173/Recalla/"

/-- The hardcoded fallback URL (`page.goto` at line 26). -/
def welcomeURL : String := "http://localhost:5173/Recalla/welcome"

/-- The hardcoded screenshot output path (line 51). -/
def screenshotPath : String := "verification/game_screenshot.png"

/-- The locator used at line 18: `page.get_by_text("Start Learning")`. -/
def startLocator : String := "text=Start Learning"

/-- The locator used at line 40:
`page.get_by_role("button", name="Play")`. -/
def playLocator : String := "role=button[name=Play]"

/-- Lines 28-54 of `verification/verify_game.py`: the part of the body
after the Start Learning step, given the events performed so far.  The
Play step uses `.first`, which escapes strict mode, so with several Play
matches the head of the document-order list is clicked; with none the
`.first.click()` raises. -/
def afterStart (env : Env) (t1 : List Event) :
    List Event × Except AutoError Unit :=
  let t2 : List Event := t1 ++
    [.print "Waiting for topics...",
     .waitForSelector "text=German Words" (some 10000)]
  if env.categoryLandmark then
    let t3 : List Event := t2 ++ [.print "Clicking Play..."]
    match env.playButtons with
    | p :: _ =>
      let t4 : List Event := t3 ++
        [.click playLocator p, .print "Waiting for game to load...",
         .waitForSelector ".grid" (some 10000)]
      if env.gridMarker then
        ⟨t4 ++ [.sleep 2, .print "Taking screenshot...",
                .screenshot screenshotPath, .closeBrowser, .print "Done."],
         .ok ()⟩
      else
        ⟨t4, .error (.timeout ".grid" (some 10000))⟩
    | [] =>
      ⟨t3, .error (.noElement playLocator)⟩
  else
    ⟨t2, .error (.timeout "text=German Words" (some 10000))⟩

/-- Body of the `with sync_playwright() as p:` block (lines 6-54 of
`verification/verify_game.py`), translated line by line: the events it
performs and its outcome.  On an uncaught error the event list stops at
the failing call.  The Start Learning step (lines 18-26) branches on
`start_btn.count()`: with no match it prints and navigates to the
fallback URL; with exactly one match `start_btn.click()` clicks it; with
two or more matches that plain locator click is a strict-mode violation —
Playwright locator actions are strict — so it raises without clicking
anything and the run aborts there. -/
def verify_body (env : Env) : List Event × Except AutoError Unit :=
  let t0 : List Event :=
    [.launch, .newPage, .print "Navigating to home page...", .goto rootURL,
     .waitForSelector "text=Recalla" none]
  if env.homeLandmark then
    let t1 : List Event := t0 ++ [.print "Clicking Start Learning..."]
    match env.startButtons with
    | [] =>
      afterStart env (t1 ++
        [.print "Start button not found, navigating directly to /welcome",
         .goto welcomeURL])
    | [s] =>
      afterStart env (t1 ++ [.click startLocator s])
    | _ :: _ :: _ =>
      ⟨t1, .error (.strictMode startLocator)⟩
  else
    ⟨t0, .error (.timeout "text=Recalla" none)⟩

/-- Shallow embedding of `verify_game` (lines 4-54 of
`verification/verify_game.py`).  The `with sync_playwright() as p:`
statement runs its exit action — stopping the Playwright driver, which
releases the browser process it spawned — on every exit path of the body,
whether the body completed normally or raised, so `Event.stopPlaywright`
closes the trace unconditionally; a raised error is not caught and
becomes the outcome. -/
def verify_game (env : Env) : RunResult :=
  ⟨(verify_body env).1 ++ [.stopPlaywright], (verify_body env).2⟩

/-- The script as started from the command line
(`if __name__ == "__main__": verify_game()`).  The process receives a
command line and an OS environment, but the script imports neither `sys`
nor `os` and reads neither: the body is `verify_game` applied to the page
environment alone. -/
def run_script (_argv : List String) (_osEnv : String → Option String)
    (world : Env) : RunResult :=
  verify_game world

/-- URLs passed to `page.goto`, in order, within a trace. -/
def urlsVisited (t : List Event) : List String :=
  t.filterMap fun e =>
    match e with
    | .goto u => some u
    | _ => none

/-- Wait-for-selector calls (selector and timeout argument), in order. -/
def waitCalls (t : List Event) : List (String × Option Nat) :=
  t.filterMap fun e =>
    match e with
    | .waitForSelector sel timeoutArg => some (sel, timeoutArg)
    | _ => none

/-- File paths written (screenshot calls), in order, within a trace. -/
def fileWrites (t : List Event) : List String :=
  t.filterMap fun e =>
    match e with
    | .screenshot p => some p
    | _ => none

/-- Elements clicked through a given locator, in order, within a trace. -/
def clicksOf (loc : String) (t : List Event) : List Nat :=
  t.filterMap fun e =>
    match e with
    | .click l x => if l = loc then some x else none
    | _ => none

/-- Set of existing files after an event: a screenshot call creates the
file at its path if absent and overwrites it if present; no other event
touches the filesystem. -/
def applyEvent (fs : List String) : Event → List String
  | .screenshot p => if p ∈ fs then fs else fs ++ [p]
  | _ => fs

/-- Set of existing files after a whole trace. -/
def applyTrace (fs : List String) (t : List Event) : List String :=
  t.foldl applyEvent fs

/-- On the all-waits-succeed path with exactly one Start Learning match,
the run performs exactly this sequence of events and completes normally. -/
theorem trace_success_start (env : Env) (h1 : env.homeLandmark = true)
    (h2 : env.categoryLandmark = true) (h3 : env.gridMarker = true)
    (s : Nat) (hsb : env.startButtons = [s])
    (p : Nat) (prest : List Nat) (hpb : env.playButtons = p :: prest) :
    verify_game env =
      ⟨[.launch, .newPage, .print "Navigating to home page...",
        .goto rootURL, .waitForSelector "text=Recalla" none,
        .print "Clicking Start Learning...", .click startLocator s,
        .print "Waiting for topics...",
        .waitForSelector "text=German Words" (some 10000),
        .print "Clicking Play...", .click playLocator p,
        .print "Waiting for game to load...",
        .waitForSelector ".grid" (some 10000), .sleep 2,
        .print "Taking screenshot...", .screenshot screenshotPath,
        .closeBrowser, .print "Done.", .stopPlaywright],
       .ok ()⟩ := by
  simp [verify_game, verify_body, afterStart, h1, h2, h3, hsb, hpb]

/-- On the all-waits-succeed path with no Start Learning match, the run
takes the fallback navigation and performs exactly this sequence. -/
theorem trace_success_fallback (env : Env) (h1 : env.homeLandmark = true)
    (h2 : env.categoryLandmark = true) (h3 : env.gridMarker = true)
    (hsb : env.startButtons = [])
    (p : Nat) (prest : List Nat) (hpb : env.playButtons = p :: prest) :
    verify_game env =
      ⟨[.launch, .newPage, .print "Navigating to home page...",
        .goto rootURL, .waitForSelector "text=Recalla" none,
        .print "Clicking Start Learning...",
        .print "Start button not found, navigating directly to /welcome",
        .goto welcomeURL, .print "Waiting for topics...",
        .waitForSelector "text=German Words" (some 10000),
        .print "Clicking Play...", .click playLocator p,
        .print "Waiting for game to load...",
        .waitForSelector ".grid" (some 10000), .sleep 2,
        .print "Taking screenshot...", .screenshot screenshotPath,
        .closeBrowser, .print "Done.", .stopPlaywright],
       .ok ()⟩ := by
  simp [verify_game, verify_body, afterStart, h1, h2, h3, hsb, hpb]

/-- A run writes exactly the screenshot file when it completes normally,
and writes nothing at all otherwise. -/
theorem fileWrites_verify (env : Env) :
    fileWrites (verify_game env).trace =
      if (verify_game env).outcome = Except.ok () then [screenshotPath]
      else [] := by
  cases hh : env.homeLandmark <;> cases hc : env.categoryLandmark <;>
    cases hg : env.gridMarker <;>
      rcases hsb : env.startButtons with _ | ⟨s0, _ | ⟨s1, srest0⟩⟩ <;>
        rcases hpb : env.playButtons with _ | ⟨p0, prest0⟩ <;>
          simp [verify_game, verify_body, afterStart, fileWrites, hh, hc,
            hg, hsb, hpb]

/-- The filesystem after a trace depends only on the paths written, folded
with overwrite-or-create semantics. -/
theorem applyTrace_eq_foldl (t : List Event) (fs : List String) :
    applyTrace fs t =
      (fileWrites t).foldl
        (fun acc q => if q ∈ acc then acc else acc ++ [q]) fs := by
  induction t generalizing fs with
  | nil => rfl
  | cons e rest ih =>
    have hstep : applyTrace fs (e :: rest) =
        applyTrace (applyEvent fs e) rest := rfl
    rw [hstep, ih]
    cases e <;> simp [applyEvent, fileWrites, List.filterMap_cons]

/-- C9: execution is fully sequential.  On the successful path the run
performs the contract steps — acquire the automation context, launch,
open a page, navigate to the root URL, wait for the home landmark, click
the Start Learning element or fall back to direct navigation, bounded
wait for the category landmark, click of the first Play button, bounded
wait for the grid marker, fixed pause, screenshot, browser close, context
release — in exactly this order, as one linear event trace, in each
start-button branch (one match clicks; no match falls back; two or more
matches are a strict-mode violation and not a successful path). -/
theorem steps_in_exact_order (env : Env) (h1 : env.homeLandmark = true)
    (h2 : env.categoryLandmark = true) (h3 : env.gridMarker = true)
    (p : Nat) (prest : List Nat) (hpb : env.playButtons = p :: prest) :
    (∀ s, env.startButtons = [s] →
      (verify_game env).trace =
        [.launch, .newPage, .print "Navigating to home page...",
         .goto rootURL, .waitForSelector "text=Recalla" none,
         .print "Clicking Start Learning...", .click startLocator s,
         .print "Waiting for topics...",
         .waitForSelector "text=German Words" (some 10000),
         .print "Clicking Play...", .click playLocator p,
         .print "Waiting for game to load...",
         .waitForSelector ".grid" (some 10000), .sleep 2,
         .print "Taking screenshot...", .screenshot screenshotPath,
         .closeBrowser, .print "Done.", .stopPlaywright]) ∧
    (env.startButtons = [] →
      (verify_game env).trace =
        [.launch, .newPage, .print "Navigating to home page...",
         .goto rootURL, .waitForSelector "text=Recalla" none,
         .print "Clicking Start Learning...",
         .print "Start button not found, navigating directly to /welcome",
         .goto welcomeURL, .print "Waiting for topics...",
         .waitForSelector "text=German Words" (some 10000),
         .print "Clicking Play...", .click playLocator p,
         .print "Waiting for game to load...",
         .waitForSelector ".grid" (some 10000), .sleep 2,
         .print "Taking screenshot...", .screenshot screenshotPath,
         .closeBrowser, .print "Done.", .stopPlaywright]) := by
  constructor
  · intro s hsb
    rw [trace_success_start env h1 h2 h3 s hsb p prest hpb]
  · intro hsb
    rw [trace_success_fallback env h1 h2 h3 hsb p prest hpb]

/-- Witness for C9 at a concrete environment. -/
theorem steps_in_exact_order_witness :
    (verify_game ⟨true, [5], true, [7, 8], true⟩).trace =
      [.launch, .newPage, .print "Navigating to home page...",
       .goto rootURL, .waitForSelector "text=Recalla" none,
       .print "Clicking Start Learning...", .click startLocator 5,
       .print "Waiting for topics...",
       .waitForSelector "text=German Words" (some 10000),
       .print "Clicking Play...", .click playLocator 7,
       .print "Waiting for game to load...",
       .waitForSelector ".grid" (some 10000), .sleep 2,
       .print "Taking screenshot...", .screenshot screenshotPath,
       .closeBrowser, .print "Done.", .stopPlaywright] :=
  (steps_in_exact_order ⟨true, [5], true, [7, 8], true⟩ rfl rfl rfl
    7 [8] rfl).1 5 rfl

/-- C1: on the successful path — all three waits succeed, a Play match
exists, and the Start Learning locator has at most one match, since two
or more would raise a strict-mode violation instead — the run completes
normally and, directly after the grid-marker wait and the fixed settle
pause, captures a screenshot persisted to the fixed path
verification/game_screenshot.png — the single file the run writes. -/
theorem screenshot_persisted_on_success (env : Env)
    (h1 : env.homeLandmark = true) (h2 : env.categoryLandmark = true)
    (h3 : env.gridMarker = true) (hsb1 : env.startButtons.length ≤ 1)
    (p : Nat) (prest : List Nat) (hpb : env.playButtons = p :: prest) :
    (verify_game env).outcome = Except.ok () ∧
    fileWrites (verify_game env).trace =
      ["verification/game_screenshot.png"] ∧
    ∃ l r, (verify_game env).trace =
      l ++ [Event.waitForSelector ".grid" (some 10000), Event.sleep 2,
            Event.print "Taking screenshot...",
            Event.screenshot "verification/game_screenshot.png"] ++ r := by
  rcases hsb : env.startButtons with _ | ⟨s0, _ | ⟨s1, srest0⟩⟩
  · rw [trace_success_fallback env h1 h2 h3 hsb p prest hpb]
    refine ⟨rfl, by simp [fileWrites, screenshotPath], ?_⟩
    exact ⟨[.launch, .newPage, .print "Navigating to home page...",
            .goto rootURL, .waitForSelector "text=Recalla" none,
            .print "Clicking Start Learning...",
            .print "Start button not found, navigating directly to /welcome",
            .goto welcomeURL, .print "Waiting for topics...",
            .waitForSelector "text=German Words" (some 10000),
            .print "Clicking Play...", .click playLocator p,
            .print "Waiting for game to load..."],
           [.closeBrowser, .print "Done.", .stopPlaywright], rfl⟩
  · rw [trace_success_start env h1 h2 h3 s0 hsb p prest hpb]
    refine ⟨rfl, by simp [fileWrites, screenshotPath], ?_⟩
    exact ⟨[.launch, .newPage, .print "Navigating to home page...",
            .goto rootURL, .waitForSelector "text=Recalla" none,
            .print "Clicking Start Learning...", .click startLocator s0,
            .print "Waiting for topics...",
            .waitForSelector "text=German Words" (some 10000),
            .print "Clicking Play...", .click playLocator p,
            .print "Waiting for game to load..."],
           [.closeBrowser, .print "Done.", .stopPlaywright], rfl⟩
  · rw [hsb] at hsb1
    simp at hsb1

/-- Witness for C1 at a concrete environment. -/
theorem screenshot_persisted_on_success_witness :
    (verify_game ⟨true, [1], true, [2], true⟩).outcome = Except.ok () ∧
    fileWrites (verify_game ⟨true, [1], true, [2], true⟩).trace =
      ["verification/game_screenshot.png"] ∧
    ∃ l r, (verify_game ⟨true, [1], true, [2], true⟩).trace =
      l ++ [Event.waitForSelector ".grid" (some 10000), Event.sleep 2,
            Event.print "Taking screenshot...",
            Event.screenshot "verification/game_screenshot.png"] ++ r :=
  screenshot_persisted_on_success ⟨true, [1], true, [2], true⟩
    rfl rfl rfl (by decide) 2 [] rfl

/-- C10: on a full run — here with at most one Start Learning match, so
the run gets past the start step — the wait-for-selector calls are
exactly three: the home-landmark wait for text=Recalla with no timeout
argument, then the category-landmark wait for text=German Words and the
grid-marker wait for .grid, both with the same explicit 10000 ms
timeout. -/
theorem wait_timeout_constants (env : Env) (h1 : env.homeLandmark = true)
    (h2 : env.categoryLandmark = true) (h3 : env.gridMarker = true)
    (hsb1 : env.startButtons.length ≤ 1)
    (p : Nat) (prest : List Nat) (hpb : env.playButtons = p :: prest) :
    waitCalls (verify_game env).trace =
      [("text=Recalla", none), ("text=German Words", some 10000),
       (".grid", some 10000)] := by
  rcases hsb : env.startButtons with _ | ⟨s0, _ | ⟨s1, srest0⟩⟩
  · rw [trace_success_fallback env h1 h2 h3 hsb p prest hpb]
    simp [waitCalls]
  · rw [trace_success_start env h1 h2 h3 s0 hsb p prest hpb]
    simp [waitCalls]
  · rw [hsb] at hsb1
    simp at hsb1

/-- Witness for C10 at a concrete environment. -/
theorem wait_timeout_constants_witness :
    waitCalls (verify_game ⟨true, [], true, [4], true⟩).trace =
      [("text=Recalla", none), ("text=German Words", some 10000),
       (".grid", some 10000)] :=
  wait_timeout_constants ⟨true, [], true, [4], true⟩ rfl rfl rfl
    (by decide) 4 [] rfl

/-- Counterexample to C2 as frozen: on a page where the home landmark
appears and two elements match the Start Learning text, at least one
match exists, yet the run does not click and proceed — the plain locator
click is a strict-mode violation, the error propagates, and the
content-listing wait for text=German Words is never invoked. -/
theorem start_two_matches_aborts :
    (verify_game ⟨true, [1, 2], true, [3], true⟩).outcome =
      Except.error (AutoError.strictMode "text=Start Learning") ∧
    Event.waitForSelector "text=German Words" (some 10000) ∉
      (verify_game ⟨true, [1, 2], true, [3], true⟩).trace ∧
    ∀ s, Event.click "text=Start Learning" s ∉
      (verify_game ⟨true, [1, 2], true, [3], true⟩).trace := by
  refine ⟨by decide, by decide, ?_⟩
  intro s
  simp [verify_game, verify_body, startLocator, rootURL]

/-- C2 (amended): after the home-landmark wait succeeds, the runner
queries the text locator for Start Learning; when exactly one match
exists it clicks it, never navigates to the fallback URL, and goes on to
invoke the content-listing wait for text=German Words; when no match
exists it raises nothing and instead navigates directly to
http://localhost:5173/Recalla/welcome, clicks no Start Learning element,
and likewise reaches the content-listing wait; when two or more match,
the strict-mode locator click raises an uncaught error and the
content-listing wait is never invoked. -/
theorem start_click_or_fallback (env : Env) (h1 : env.homeLandmark = true) :
    (∀ s, env.startButtons = [s] →
      Event.click "text=Start Learning" s ∈ (verify_game env).trace ∧
      Event.goto "http://localhost:5173/Recalla/welcome" ∉
        (verify_game env).trace ∧
      Event.waitForSelector "text=German Words" (some 10000) ∈
        (verify_game env).trace) ∧
    (env.startButtons = [] →
      Event.goto "http://localhost:5173/Recalla/welcome" ∈
        (verify_game env).trace ∧
      (∀ s, Event.click "text=Start Learning" s ∉
        (verify_game env).trace) ∧
      Event.waitForSelector "text=German Words" (some 10000) ∈
        (verify_game env).trace) ∧
    (∀ s s2 srest, env.startButtons = s :: s2 :: srest →
      (verify_game env).outcome =
        Except.error (AutoError.strictMode "text=Start Learning") ∧
      Event.waitForSelector "text=German Words" (some 10000) ∉
        (verify_game env).trace) := by
  cases hc : env.categoryLandmark <;> cases hg : env.gridMarker <;>
    rcases hsb : env.startButtons with _ | ⟨s0, _ | ⟨s1, srest0⟩⟩ <;>
      rcases hpb : env.playButtons with _ | ⟨p0, prest0⟩ <;>
        simp +decide [verify_game, verify_body, afterStart, h1, hc, hg,
          hsb, hpb, startLocator, playLocator, rootURL, welcomeURL]

/-- Witness for the amended C2 at concrete environments: the
single-match branch clicks and reaches the wait, and the no-match branch
falls back and reaches the wait. -/
theorem start_click_or_fallback_witness :
    (Event.click "text=Start Learning" 9 ∈
        (verify_game ⟨true, [9], true, [6], true⟩).trace ∧
      Event.goto "http://localhost:5173/Recalla/welcome" ∉
        (verify_game ⟨true, [9], true, [6], true⟩).trace ∧
      Event.waitForSelector "text=German Words" (some 10000) ∈
        (verify_game ⟨true, [9], true, [6], true⟩).trace) ∧
    (Event.goto "http://localhost:5173/Recalla/welcome" ∈
        (verify_game ⟨true, [], true, [6], true⟩).trace ∧
      (∀ s, Event.click "text=Start Learning" s ∉
        (verify_game ⟨true, [], true, [6], true⟩).trace) ∧
      Event.waitForSelector "text=German Words" (some 10000) ∈
        (verify_game ⟨true, [], true, [6], true⟩).trace) :=
  ⟨(start_click_or_fallback ⟨true, [9], true, [6], true⟩ rfl).1 9 rfl,
   (start_click_or_fallback ⟨true, [], true, [6], true⟩ rfl).2.1 rfl⟩

/-- C3: on a run that reaches the Play step (at most one Start Learning
match, so no strict-mode abort before it), whatever the Play-button
matches are — in particular when there is more than one — the runner
clicks exactly the first match in document order, and no other element
through that locator. -/
theorem play_first_in_document_order (env : Env)
    (h1 : env.homeLandmark = true) (h2 : env.categoryLandmark = true)
    (hsb1 : env.startButtons.length ≤ 1)
    (p : Nat) (prest : List Nat) (hpb : env.playButtons = p :: prest) :
    clicksOf "role=button[name=Play]" (verify_game env).trace = [p] := by
  rcases hsb : env.startButtons with _ | ⟨s0, _ | ⟨s1, srest0⟩⟩
  · cases hg : env.gridMarker <;>
      simp +decide [verify_game, verify_body, afterStart, clicksOf, h1,
        h2, hg, hsb, hpb, startLocator, playLocator]
  · cases hg : env.gridMarker <;>
      simp +decide [verify_game, verify_body, afterStart, clicksOf, h1,
        h2, hg, hsb, hpb, startLocator, playLocator]
  · rw [hsb] at hsb1
    simp at hsb1

/-- Witness for C3 at a concrete environment with two Play matches. -/
theorem play_first_in_document_order_witness :
    clicksOf "role=button[name=Play]"
        (verify_game ⟨true, [1], true, [7, 9], true⟩).trace = [7] :=
  play_first_in_document_order ⟨true, [1], true, [7, 9], true⟩
    rfl rfl (by decide) 7 [9] rfl

/-- C4: whenever one of the three awaited selectors never appears, the run
ends in a propagated, uncaught automation error and writes no screenshot;
conversely a screenshot event occurs in a trace only when all three waits
succeeded. -/
theorem wait_timeout_aborts (env : Env) :
    ((env.homeLandmark = false ∨ env.categoryLandmark = false ∨
        env.gridMarker = false) →
      (∃ e, (verify_game env).outcome = Except.error e) ∧
      Event.screenshot "verification/game_screenshot.png" ∉
        (verify_game env).trace) ∧
    (Event.screenshot "verification/game_screenshot.png" ∈
        (verify_game env).trace →
      env.homeLandmark = true ∧ env.categoryLandmark = true ∧
      env.gridMarker = true) := by
  cases hh : env.homeLandmark <;> cases hc : env.categoryLandmark <;>
    cases hg : env.gridMarker <;>
      rcases hsb : env.startButtons with _ | ⟨s0, _ | ⟨s1, srest0⟩⟩ <;>
        rcases hpb : env.playButtons with _ | ⟨p0, prest0⟩ <;>
          simp [verify_game, verify_body, afterStart, hh, hc, hg, hsb,
            hpb, screenshotPath]

/-- Witness for C4 at a concrete environment whose home landmark never
appears. -/
theorem wait_timeout_aborts_witness :
    (∃ e, (verify_game ⟨false, [1], true, [2], true⟩).outcome =
        Except.error e) ∧
    Event.screenshot "verification/game_screenshot.png" ∉
      (verify_game ⟨false, [1], true, [2], true⟩).trace :=
  (wait_timeout_aborts ⟨false, [1], true, [2], true⟩).1 (Or.inl rfl)

/-- C5: on every run that reaches and completes the grid-marker wait (so
all three waits succeed, a Play match exists, and at most one Start
Learning match, since two or more abort the run earlier), the fixed
pause of 2 time units is the very next event after that wait, the
screenshot capture comes after the pause, and the pause occurs exactly
once in the run. -/
theorem settle_pause_between_wait_and_screenshot (env : Env)
    (h1 : env.homeLandmark = true) (h2 : env.categoryLandmark = true)
    (h3 : env.gridMarker = true) (hsb1 : env.startButtons.length ≤ 1)
    (p : Nat) (prest : List Nat) (hpb : env.playButtons = p :: prest) :
    (verify_game env).trace.count (Event.sleep 2) = 1 ∧
    ∃ l r, (verify_game env).trace =
      l ++ [Event.waitForSelector ".grid" (some 10000), Event.sleep 2] ++ r ∧
      Event.screenshot "verification/game_screenshot.png" ∈ r := by
  rcases hsb : env.startButtons with _ | ⟨s0, _ | ⟨s1, srest0⟩⟩
  · rw [trace_success_fallback env h1 h2 h3 hsb p prest hpb]
    refine ⟨by simp [List.count_cons], ?_⟩
    refine ⟨[.launch, .newPage, .print "Navigating to home page...",
             .goto rootURL, .waitForSelector "text=Recalla" none,
             .print "Clicking Start Learning...",
             .print "Start button not found, navigating directly to /welcome",
             .goto welcomeURL, .print "Waiting for topics...",
             .waitForSelector "text=German Words" (some 10000),
             .print "Clicking Play...", .click playLocator p,
             .print "Waiting for game to load..."],
            [.print "Taking screenshot...", .screenshot screenshotPath,
             .closeBrowser, .print "Done.", .stopPlaywright], rfl, ?_⟩
    simp [screenshotPath]
  · rw [trace_success_start env h1 h2 h3 s0 hsb p prest hpb]
    refine ⟨by simp [List.count_cons], ?_⟩
    refine ⟨[.launch, .newPage, .print "Navigating to home page...",
             .goto rootURL, .waitForSelector "text=Recalla" none,
             .print "Clicking Start Learning...", .click startLocator s0,
             .print "Waiting for topics...",
             .waitForSelector "text=German Words" (some 10000),
             .print "Clicking Play...", .click playLocator p,
             .print "Waiting for game to load..."],
            [.print "Taking screenshot...", .screenshot screenshotPath,
             .closeBrowser, .print "Done.", .stopPlaywright], rfl, ?_⟩
    simp [screenshotPath]
  · rw [hsb] at hsb1
    simp at hsb1

/-- Witness for C5 at a concrete environment. -/
theorem settle_pause_between_wait_and_screenshot_witness :
    (verify_game ⟨true, [1], true, [2], true⟩).trace.count
        (Event.sleep 2) = 1 ∧
    ∃ l r, (verify_game ⟨true, [1], true, [2], true⟩).trace =
      l ++ [Event.waitForSelector ".grid" (some 10000), Event.sleep 2] ++ r ∧
      Event.screenshot "verification/game_screenshot.png" ∈ r :=
  settle_pause_between_wait_and_screenshot ⟨true, [1], true, [2], true⟩
    rfl rfl rfl (by decide) 2 [] rfl

/-- C6: the automation context is scoped: on every run — whether the
outcome is normal completion or a propagated error — the final event of
the trace is the context-manager exit that releases the browser
process. -/
theorem browser_released_on_all_paths (env : Env) :
    (∃ l, (verify_game env).trace = l ++ [Event.stopPlaywright]) ∧
    ((verify_game env).outcome = Except.ok () ∨
      ∃ e, (verify_game env).outcome = Except.error e) := by
  refine ⟨⟨(verify_body env).1, rfl⟩, ?_⟩
  cases ho : (verify_body env).2 with
  | ok u => cases u; exact Or.inl ho
  | error e => exact Or.inr ⟨e, ho⟩

/-- C7: every write of any run targets the one fixed path
verification/game_screenshot.png; a successful run writes exactly that
file, and after two successful runs the filesystem holds that single
file — the second run overwrote it instead of creating another. -/
theorem single_fixed_output_overwritten (env1 env2 : Env) :
    (∀ pth, pth ∈ fileWrites (verify_game env1).trace →
      pth = "verification/game_screenshot.png") ∧
    ((verify_game env1).outcome = Except.ok () →
      fileWrites (verify_game env1).trace =
        ["verification/game_screenshot.png"]) ∧
    ((verify_game env1).outcome = Except.ok () →
      (verify_game env2).outcome = Except.ok () →
      applyTrace (applyTrace [] (verify_game env1).trace)
          (verify_game env2).trace =
        ["verification/game_screenshot.png"]) := by
  have w1 := fileWrites_verify env1
  have w2 := fileWrites_verify env2
  refine ⟨?_, ?_, ?_⟩
  · intro pth hmem
    rw [w1] at hmem
    by_cases hk : (verify_game env1).outcome = Except.ok ()
    · rw [if_pos hk] at hmem
      simpa [screenshotPath] using hmem
    · rw [if_neg hk] at hmem
      simp at hmem
  · intro hA
    rw [w1, if_pos hA]
    simp [screenshotPath]
  · intro hA hB
    rw [applyTrace_eq_foldl, applyTrace_eq_foldl, w1, w2, if_pos hA,
      if_pos hB]
    decide

/-- Witness for C7 at two concrete successful environments. -/
theorem single_fixed_output_overwritten_witness :
    applyTrace
        (applyTrace [] (verify_game ⟨true, [1], true, [2], true⟩).trace)
        (verify_game ⟨true, [], true, [3], true⟩).trace =
      ["verification/game_screenshot.png"] :=
  (single_fixed_output_overwritten ⟨true, [1], true, [2], true⟩
    ⟨true, [], true, [3], true⟩).2.2 (by decide) (by decide)

/-- C8: the run reads no command-line arguments and no OS environment
variables: any two invocations against the same application state produce
the identical result — in particular the same URLs visited, the same
wait calls with the same timeouts, and the same writes — and the root
URL, fallback URL and output path are the hardcoded constants. -/
theorem invocation_config_independent (argv1 : List String)
    (osEnv1 : String → Option String) (argv2 : List String)
    (osEnv2 : String → Option String) (world : Env) :
    run_script argv1 osEnv1 world = run_script argv2 osEnv2 world ∧
    urlsVisited (run_script argv1 osEnv1 world).trace =
      urlsVisited (run_script argv2 osEnv2 world).trace ∧
    waitCalls (run_script argv1 osEnv1 world).trace =
      waitCalls (run_script argv2 osEnv2 world).trace ∧
    fileWrites (run_script argv1 osEnv1 world).trace =
      fileWrites (run_script argv2 osEnv2 world).trace ∧
    rootURL = "http://localhost:5173/Recalla/" ∧
    welcomeURL = "http://localhost:5173/Recalla/welcome" ∧
    screenshotPath = "verification/game_screenshot.png" :=
  ⟨rfl, rfl, rfl, rfl, rfl, rfl, rfl⟩

end VerifyGame
